import Mathlib

/-!
Verification of the maplibre-gl (terrain fork) render scheduling and
render-to-texture compositing core.

The development shallowly embeds two source units:

* `src/ui/map.ts` — the frame scheduler: dirty flags (`_styleDirty`,
  `_sourcesDirty`, `_placementDirty`), the single outstanding animation
  frame handle (`_frame`), `triggerRepaint`, `_update`, `_render`,
  `remove`.  External collaborator reads performed during a frame
  (crossfade factor, `style.loaded()`, `isMoving()`, placement result,
  synchronous re-dirtying by `Style#update` / `Style#_updateSources`)
  are supplied by a per-frame environment record `FrameEnv`.

* `render_to_texture.ts` — the `RenderToTexture` compositor:
  `initialize`, `getFBO`, `freeFBO`, `renderLayer`.  JavaScript objects
  become insertion-ordered association lists, JavaScript arrays with
  holes become `List (Option _)` / `List Bool` with the corresponding
  truthiness tests, and GPU calls are recorded as trace events.
-/

namespace MGL

/-! ## Insertion-ordered string-keyed maps (JavaScript object semantics) -/

/-- Property lookup `obj[k]` on a JavaScript object modelled as an
insertion-ordered association list. -/
def alGet {α : Type} : List (String × α) → String → Option α
  | [], _ => none
  | (k', v) :: t, k => if k' = k then some v else alGet t k

/-- Property assignment `obj[k] = v`: overwrite in place if the key is
present, otherwise append (JavaScript string-keyed objects preserve
insertion order). -/
def alSet {α : Type} : List (String × α) → String → α → List (String × α)
  | [], k, v => [(k, v)]
  | (k', v') :: t, k, v => if k' = k then (k', v) :: t else (k', v') :: alSet t k v

/-! ## Frame scheduler (`src/ui/map.ts`)

`MapState` carries the scheduler fields of the `Map` class together with
three instrumentation counters: `renderCount` (number of `_render`
invocations), `drawCalls` (number of `painter.render` calls, i.e. actual
drawing) and `idleEvents` (number of fired `idle` events). -/

/-- External reads a single `_render` invocation performs on its
collaborators, plus the synchronous re-dirtying that `Style#update` /
`Style#_updateSources` event handlers may cause (see the source comment
above the `somethingDirty` computation). -/
structure FrameEnv where
  crossFadeFactor : ℚ
  hasTransitions : Bool
  styleLoaded : Bool
  isMoving : Bool
  placementResult : Bool
  styleUpdSetsStyleDirty : Bool
  styleUpdSetsSourcesDirty : Bool
  srcUpdSetsStyleDirty : Bool
  srcUpdSetsSourcesDirty : Bool
  deriving Repr, DecidableEq

/-- Scheduler-relevant state of the `Map` class.  `stylePresent` models
`!!this.style`, `frame` models `this._frame !== null`. -/
structure MapState where
  stylePresent : Bool
  styleDirty : Bool
  sourcesDirty : Bool
  placementDirty : Bool
  frame : Bool
  removed : Bool
  repaint : Bool
  isLoaded : Bool
  crossFadingFactor : ℚ
  renderCount : Nat
  drawCalls : Nat
  idleEvents : Nat
  deriving Repr, DecidableEq

/-- `Map#triggerRepaint`: schedule an animation frame only when a style
is present and no frame handle is outstanding. -/
def triggerRepaint (s : MapState) : MapState :=
  if s.stylePresent && !s.frame then { s with frame := true } else s

/-- `Map#_update(updateStyle)`: no-op without a style; otherwise
`_styleDirty ||= updateStyle`, `_sourcesDirty = true`, then
`triggerRepaint()`. -/
def update (updateStyle : Bool) (s : MapState) : MapState :=
  if !s.stylePresent then s
  else triggerRepaint
    { s with styleDirty := s.styleDirty || updateStyle, sourcesDirty := true }

/-- `Map#loaded()`: `!_styleDirty && !_sourcesDirty && !!style &&
style.loaded()`. -/
def mapLoaded (env : FrameEnv) (s : MapState) : Bool :=
  !s.styleDirty && !s.sourcesDirty && s.stylePresent && env.styleLoaded

/-- Entry of `_render`: the render task queue is drained (a counted
invocation) before the `_removed` guard is checked. -/
def taskStage (s : MapState) : MapState :=
  { s with renderCount := s.renderCount + 1 }

/-- The `_styleDirty` branch of `_render`: clear the flag, compute the
crossfade factor, set the local `crossFading` flag when
`factor !== 1 || factor !== this._crossFadingFactor`, store the factor in
that case, and run `style.update` (whose synchronous events may re-set
the dirty flags). -/
def styleStage (env : FrameEnv) (s : MapState) : MapState × Bool :=
  if s.stylePresent && s.styleDirty then
    let factor := env.crossFadeFactor
    let crossFading := !(decide (factor = 1)) || !(decide (factor = s.crossFadingFactor))
    ({ s with
        styleDirty := env.styleUpdSetsStyleDirty,
        sourcesDirty := s.sourcesDirty || env.styleUpdSetsSourcesDirty,
        crossFadingFactor := if crossFading then factor else s.crossFadingFactor },
      crossFading)
  else (s, false)

/-- The `_sourcesDirty` branch of `_render`: clear the flag and run
`style._updateSources` (whose synchronous events may re-set the dirty
flags). -/
def sourcesStage (env : FrameEnv) (s : MapState) : MapState :=
  if s.stylePresent && s.sourcesDirty then
    { s with
        sourcesDirty := env.srcUpdSetsSourcesDirty,
        styleDirty := s.styleDirty || env.srcUpdSetsStyleDirty }
  else s

/-- `this._placementDirty = this.style && this.style._updatePlacement(...)`. -/
def placementStage (env : FrameEnv) (s : MapState) : MapState :=
  { s with placementDirty := s.stylePresent && env.placementResult }

/-- `this.painter.render(...)`: the actual drawing of the frame. -/
def drawStage (s : MapState) : MapState :=
  { s with drawCalls := s.drawCalls + 1 }

/-- The one-time `load` bookkeeping: `if (this.loaded() && !this._loaded)
this._loaded = true`. -/
def loadStage (env : FrameEnv) (s : MapState) : MapState :=
  if mapLoaded env s && !s.isLoaded then { s with isLoaded := true } else s

/-- `if (this.style && (this.style.hasTransitions() || crossFading))
this._styleDirty = true`. -/
def transitionStage (env : FrameEnv) (crossFading : Bool) (s : MapState) : MapState :=
  if s.stylePresent && (env.hasTransitions || crossFading) then
    { s with styleDirty := true }
  else s

/-- End of `_render`: recompute `somethingDirty`; re-request a frame when
something is dirty or continuous repaint is on, otherwise fire `idle`
when the map is not moving and `loaded()`. -/
def scheduleStage (env : FrameEnv) (s : MapState) : MapState :=
  let somethingDirty := s.sourcesDirty || s.styleDirty || s.placementDirty
  if somethingDirty || s.repaint then triggerRepaint s
  else if !env.isMoving && mapLoaded env s then
    { s with idleEvents := s.idleEvents + 1 }
  else s

/-- `Map#_render`: task drain, `_removed` guard, then the fixed pipeline
of stages in source order. -/
def render (env : FrameEnv) (s : MapState) : MapState :=
  let s := taskStage s
  if s.removed then s
  else
    let sc := styleStage env s
    let s := sourcesStage env sc.1
    let s := placementStage env s
    let s := drawStage s
    let s := loadStage env s
    let s := transitionStage env sc.2 s
    scheduleStage env s

/-- One animation tick: when a frame handle is outstanding, the browser
fires the callback registered by `triggerRepaint`, which nulls `_frame`
and invokes `_render`. -/
def tick (env : FrameEnv) (s : MapState) : MapState :=
  if s.frame then render env { s with frame := false } else s

/-- `Map#remove`: cancel the outstanding frame handle, tear the style
down (`setStyle(null)` deletes `this.style`) and set the `_removed`
flag. -/
def remove (s : MapState) : MapState :=
  { s with frame := false, stylePresent := false, removed := true }

/-- A dirty-marking call arriving between two frames: either a direct
`triggerRepaint` or an `_update(updateStyle)`. -/
inductive DirtyOp where
  | trig : DirtyOp
  | upd : Bool → DirtyOp
  deriving Repr, DecidableEq

def applyDirty : DirtyOp → MapState → MapState
  | .trig, s => triggerRepaint s
  | .upd b, s => update b s

def applyDirtyOps (ops : List DirtyOp) (s : MapState) : MapState :=
  ops.foldl (fun s op => applyDirty op s) s

/-- Any event that can reach the scheduler after teardown: dirty-marking
calls from asynchronous callbacks, animation ticks, or a direct
`_render` invocation. -/
inductive Act where
  | upd : Bool → Act
  | trig : Act
  | frameTick : FrameEnv → Act
  | renderCall : FrameEnv → Act
  deriving Repr, DecidableEq

def applyAct : Act → MapState → MapState
  | .upd b, s => update b s
  | .trig, s => triggerRepaint s
  | .frameTick env, s => tick env s
  | .renderCall env, s => render env s

def applyActs (acts : List Act) (s : MapState) : MapState :=
  acts.foldl (fun s a => applyAct a s) s

/-! ## Render-to-texture compositor (`render_to_texture.ts`)

JavaScript objects are the association lists above; JavaScript arrays
with holes (`tile.rttFBOs`, `this.rttUsedFBOs`) are lists of `Option` /
`Bool` values read with a default, so that `undefined` keeps its falsy
behaviour — and, crucially, so that the truthiness test
`if (tile.rttFBOs[stack])` is `false` for the valid framebuffer index
`0` exactly as in the source.  GL work (layer draws, terrain draping,
FBO free/alloc) is recorded as trace events. -/

/-- A source tile identity; only its `key` is consumed by this unit. -/
structure SrcTileID where
  key : String
  deriving Repr, DecidableEq

/-- The two properties of a style layer this unit reads. -/
structure LayerInfo where
  type : String
  source : Option String
  deriving Repr, DecidableEq

/-- External collaborator data read by `initialize` / `renderLayer`:
the style's source caches, their visible coordinates,
`terrain.sourceCache.getTerrainCoords`, the draw-ordered layer list and
the terrain rerender flags. -/
structure RTTEnv where
  sources : List String
  visibleCoords : List (String × List SrcTileID)
  terrainCoords : List (String × List (String × SrcTileID))
  styleOrder : List String
  layers : List (String × LayerInfo)
  needsRerender : List (String × List String)
  deriving Repr, DecidableEq

/-- Per-tile state that survives across frames: `rttFBOs` (stack index →
framebuffer index, with holes) and `rttCoords` (source id → last
rendered CompositeKey string). -/
structure RTTTile where
  tileKey : String
  rttFBOs : List (Option Nat)
  rttCoords : List (String × String)
  deriving Repr, DecidableEq

/-- Observable GL work. -/
inductive RTTEvent where
  | draw : String → Nat → String → RTTEvent
  | terrainDraw : RTTEvent
  | freeFBOEv : Option Nat → RTTEvent
  | allocFBO : Nat → RTTEvent
  deriving Repr, DecidableEq

/-- State of the `RenderToTexture` instance.  `poolSize` is
`rttFBOs.length` (the GL objects themselves carry no information the
claims need). -/
structure RTTState where
  poolSize : Nat
  rttUsedFBOs : List Bool
  stacksArr : List (List String)
  prevType : Option String
  renderableTiles : List RTTTile
  coordsDescendingInv : List (String × List (String × List SrcTileID))
  coordsDescendingInvStr : List (String × List (String × String))
  trace : List RTTEvent
  deriving Repr, DecidableEq

/-- `RenderToTexture` constructor state. -/
def emptyRTT : RTTState :=
  { poolSize := 0, rttUsedFBOs := [], stacksArr := [], prevType := none,
    renderableTiles := [], coordsDescendingInv := [], coordsDescendingInvStr := [],
    trace := [] }

/-- Read of a JavaScript array of numbers with holes: absent is
`undefined`. -/
def arrGet (l : List (Option Nat)) (i : Nat) : Option Nat :=
  l.getD i none

/-- `a[i] = v` on a JavaScript array, padding skipped slots with holes. -/
def arrSet (l : List (Option Nat)) (i : Nat) (v : Nat) : List (Option Nat) :=
  match l, i with
  | [], 0 => [some v]
  | [], n+1 => none :: arrSet [] n v
  | _ :: t, 0 => some v :: t
  | x :: t, n+1 => x :: arrSet t n v

/-- Read of a JavaScript boolean array with holes: `undefined` and
`false` are both falsy. -/
def usedGet (l : List Bool) (i : Nat) : Bool :=
  l.getD i false

/-- `a[i] = v` on a JavaScript boolean array, padding with falsy slots. -/
def boolArrSet (l : List Bool) (i : Nat) (v : Bool) : List Bool :=
  match l, i with
  | [], 0 => [v]
  | [], n+1 => false :: boolArrSet [] n v
  | _ :: t, 0 => v :: t
  | x :: t, n+1 => x :: boolArrSet t n v

/-- JavaScript truthiness of `tile.rttFBOs[stack]`: `undefined` is
falsy, and so is the number `0`. -/
def truthyIdx : Option Nat → Bool
  | some n => n != 0
  | none => false

/-- The `_renderToTexture` lookup table set in the constructor:
`{background: true, fill: true, line: true, raster: true}`. -/
def renderToTexture (t : String) : Bool :=
  t == "background" || t == "fill" || t == "line" || t == "raster"

/-- `this._renderToTexture[this._prevType]`: `null` indexes to
`undefined`, which is falsy. -/
def rttOf : Option String → Bool
  | some t => renderToTexture t
  | none => false

/-- A JavaScript property key built from `layer.source`: an `undefined`
source is coerced to the string key `"undefined"`. -/
def srcKey : Option String → String
  | some s => s
  | none => "undefined"

/-- Lexicographic comparison of character lists by code point (the
default `Array.sort()` string order). -/
def charListLt : List Char → List Char → Bool
  | [], [] => false
  | [], _ :: _ => true
  | _ :: _, [] => false
  | a :: s, b :: t =>
    if a.toNat < b.toNat then true
    else if b.toNat < a.toNat then false
    else charListLt s t

/-- Lexicographic string comparison. -/
def strLt (x y : String) : Bool := charListLt x.data y.data

/-- Insert into a sorted list of strings (default `Array.sort()`
comparator on strings: lexicographic). -/
def insertStr (x : String) : List String → List String
  | [] => [x]
  | y :: t => if strLt x y then x :: y :: t else y :: insertStr x t

/-- `array.sort()` on strings. -/
def sortStrings : List String → List String
  | [] => []
  | x :: t => insertStr x (sortStrings t)

/-- `this._coordsDescendingInv[source][key].map(c => c.key).sort().join()`:
the CompositeKey string as the source computes it (no de-duplication;
`join()` uses the `","` separator). -/
def joinKeys (coords : List SrcTileID) : String :=
  String.intercalate "," (sortStrings (coords.map SrcTileID.key))

/-- The CompositeKey as the specification words it: the *sorted,
de-duplicated*, joined string of the contributing tile keys.  Stated
only for comparison against `joinKeys` above. -/
def compositeKeySpecStr (coords : List SrcTileID) : String :=
  String.intercalate "," (sortStrings (coords.map SrcTileID.key)).dedup

/-- The `_coordsDescendingInv` fill loop of `initialize`: for every
source cache, push each terrain coordinate of each visible tile onto
the per-render-tile list. -/
def computeInv (env : RTTEnv) : List (String × List (String × List SrcTileID)) :=
  env.sources.foldl (fun acc id =>
    let tileIDs := (alGet env.visibleCoords id).getD []
    let inner := tileIDs.foldl (fun innerAcc tileID =>
      ((alGet env.terrainCoords tileID.key).getD []).foldl
        (fun ia kv => alSet ia kv.1 ((alGet ia kv.1).getD [] ++ [kv.2]))
        innerAcc) []
    alSet acc id inner) []

/-- One iteration of the `_coordsDescendingInvStr` fill loop of
`initialize`: for a render-to-texture layer whose source has no entry
yet, serialize every per-key coordinate list of `_coordsDescendingInv`. -/
def strStep (env : RTTEnv) (inv : List (String × List (String × List SrcTileID)))
    (acc : List (String × List (String × String))) (id : String) :
    List (String × List (String × String)) :=
  let layer := (alGet env.layers id).getD { type := "", source := none }
  let source := srcKey layer.source
  if renderToTexture layer.type then
    match alGet acc source with
    | some _ => acc
    | none =>
      alSet acc source
        (((alGet inv source).getD []).map (fun kv => (kv.1, joinKeys kv.2)))
  else acc

/-- The `_coordsDescendingInvStr` fill loop of `initialize`: walk the
layer order. -/
def computeStr (env : RTTEnv)
    (inv : List (String × List (String × List SrcTileID))) :
    List (String × List (String × String)) :=
  env.styleOrder.foldl (strStep env inv) []

/-- `terrain.needsRerender(source, tileID)`. -/
def needsRerenderCheck (env : RTTEnv) (source tileKey : String) : Bool :=
  ((alGet env.needsRerender source).getD []).contains tileKey

/-- The per-tile invalidation checks of `initialize`: drop the cached
surface assignments when, for some source, the CompositeKey string
changed (a truthy `coords` differing from `tile.rttCoords[source]`) or
the terrain flagged the tile for re-render. -/
def checkTile (env : RTTEnv) (strMap : List (String × List (String × String)))
    (tile : RTTTile) : RTTTile :=
  strMap.foldl (fun t srcEntry =>
    let source := srcEntry.1
    let t :=
      match alGet srcEntry.2 t.tileKey with
      | some c =>
        if c != "" && !(alGet t.rttCoords source == some c) then
          { t with rttFBOs := [] }
        else t
      | none => t
    if needsRerenderCheck env source t.tileKey then { t with rttFBOs := [] } else t)
    tile

/-- The per-tile loop body of `initialize`: run the invalidation checks
and then mark every surviving framebuffer index of `tile.rttFBOs` as
used (`for (const i of tile.rttFBOs) this.rttUsedFBOs[i] = true`; array
holes contribute nothing to the numeric slots). -/
def initStep (env : RTTEnv) (strMap : List (String × List (String × String)))
    (st : RTTState) (tile : RTTTile) : RTTState :=
  let tile := checkTile env strMap tile
  let used := tile.rttFBOs.foldl (fun u oi =>
    match oi with
    | some i => boolArrSet u i true
    | none => u) st.rttUsedFBOs
  { st with rttUsedFBOs := used,
            renderableTiles := st.renderableTiles ++ [tile] }

/-- `RenderToTexture#initialize`: rebuild the stacks, the coordinate
tables and the used-FBO marks; `tiles` plays
`terrain.sourceCache.getRenderableTiles()` and carries the per-tile
state persisted from the previous frame. -/
def initializeRTT (env : RTTEnv) (tiles : List RTTTile) (s : RTTState) : RTTState :=
  let inv := computeInv env
  let strMap := computeStr env inv
  let s0 := { s with stacksArr := ([] : List (List String)), prevType := none,
                     coordsDescendingInv := inv, coordsDescendingInvStr := strMap,
                     rttUsedFBOs := ([] : List Bool),
                     renderableTiles := ([] : List RTTTile) }
  tiles.foldl (initStep env strMap) s0

/-- `RenderToTexture#getFBO`: return the first pool slot whose used mark
is falsy (marking it used), otherwise push a new framebuffer and return
its index — which, as in the source, is *not* marked used. -/
def getFBO (s : RTTState) : Nat × RTTState :=
  match (List.range s.poolSize).find? (fun i => !usedGet s.rttUsedFBOs i) with
  | some i =>
    (i, { s with rttUsedFBOs := boolArrSet s.rttUsedFBOs i true,
                 trace := s.trace ++ [RTTEvent.allocFBO i] })
  | none =>
    (s.poolSize, { s with poolSize := s.poolSize + 1,
                          trace := s.trace ++ [RTTEvent.allocFBO s.poolSize] })

/-- `RenderToTexture#freeFBO(i)`: clear the used mark when the argument
is a number (`undefined` is a no-op). -/
def freeFBO (i : Option Nat) (s : RTTState) : RTTState :=
  match i with
  | some n => { s with rttUsedFBOs := boolArrSet s.rttUsedFBOs n false,
                       trace := s.trace ++ [RTTEvent.freeFBOEv (some n)] }
  | none => { s with trace := s.trace ++ [RTTEvent.freeFBOEv none] }

/-- `this._stacks[this._stacks.length - 1].push(id)`. -/
def pushToLast (stacksArr : List (List String)) (lid : String) : List (List String) :=
  match stacksArr with
  | [] => [[lid]]
  | [last] => [last ++ [lid]]
  | x :: rest => x :: pushToLast rest lid

/-- The flush loop body of `renderLayer` for one tile: skip when
`tile.rttFBOs[stack]` is truthy, otherwise claim an FBO, prepare it and
draw every stack layer into it, recording the CompositeKey in
`tile.rttCoords`. -/
def drawStackForTile (env : RTTEnv) (stackIdx : Nat) (layerIds : List String)
    (st : RTTState) (tile : RTTTile) : RTTTile × RTTState :=
  if truthyIdx (arrGet tile.rttFBOs stackIdx) then (tile, st)
  else
    let p := getFBO st
    let tile := { tile with rttFBOs := arrSet tile.rttFBOs stackIdx p.1 }
    layerIds.foldl (fun (acc : RTTTile × RTTState) lid =>
      let tile := acc.1
      let st := acc.2
      let layer := (alGet env.layers lid).getD { type := "", source := none }
      let st := { st with trace := st.trace ++ [RTTEvent.draw tile.tileKey stackIdx lid] }
      let tile :=
        match layer.source with
        | some src =>
          match alGet ((alGet st.coordsDescendingInvStr src).getD []) tile.tileKey with
          | some c => { tile with rttCoords := alSet tile.rttCoords src c }
          | none => tile
        | none => tile
      (tile, st)) (tile, p.2)

/-- `RenderToTexture#renderLayer` for the layer at position
`currentLayer` of the draw order; returns the source's boolean (was the
layer rendered to texture?) along with the updated state. -/
def renderLayer (env : RTTEnv) (currentLayer : Nat) (st : RTTState) : Bool × RTTState :=
  let layerIds := env.styleOrder
  let lid := layerIds.getD currentLayer ""
  let layer := (alGet env.layers lid).getD { type := "", source := none }
  let type := layer.type
  let isLastLayer := currentLayer + 1 == layerIds.length
  let firstBlock :=
    if renderToTexture type then
      let st := if !(rttOf st.prevType) then { st with stacksArr := st.stacksArr ++ [[]] } else st
      let st := { st with prevType := some type, stacksArr := pushToLast st.stacksArr lid }
      (st, !isLastLayer)
    else (st, false)
  let st := firstBlock.1
  if firstBlock.2 then (true, st)
  else if rttOf st.prevType || type == "hillshade" || (renderToTexture type && isLastLayer) then
    let st := { st with prevType := some type }
    let st :=
      if st.stacksArr.length != 0 then
        let stackIdx := st.stacksArr.length - 1
        let stackLayers := st.stacksArr.getD stackIdx []
        let flushed := st.renderableTiles.foldl
          (fun (acc : List RTTTile × RTTState) tile =>
            let p := drawStackForTile env stackIdx stackLayers acc.2 tile
            (acc.1 ++ [p.1], p.2)) ([], st)
        { flushed.2 with renderableTiles := flushed.1 }
      else st
    let st := { st with trace := st.trace ++ [RTTEvent.terrainDraw] }
    if type == "hillshade" then
      let st := { st with stacksArr := st.stacksArr ++ [[lid]] }
      let stackIdx := st.stacksArr.length - 1
      let redrawn := st.renderableTiles.foldl
        (fun (acc : List RTTTile × RTTState) tile =>
          let s1 := freeFBO (arrGet tile.rttFBOs stackIdx) acc.2
          let p := getFBO s1
          let tile := { tile with rttFBOs := arrSet tile.rttFBOs stackIdx p.1 }
          let s2 := { p.2 with trace := p.2.trace ++ [RTTEvent.draw tile.tileKey stackIdx lid] }
          (acc.1 ++ [tile], s2)) ([], st)
      let st := { redrawn.2 with renderableTiles := redrawn.1,
                                 trace := redrawn.2.trace ++ [RTTEvent.terrainDraw] }
      (true, st)
    else (renderToTexture type, st)
  else (false, st)

/-- Drive `renderLayer` over the whole draw order (as the painter's
render loop does), collecting the returned booleans. -/
def processLayers (env : RTTEnv) (st : RTTState) : List Bool × RTTState :=
  (List.range env.styleOrder.length).foldl
    (fun (acc : List Bool × RTTState) i =>
      let p := renderLayer env i acc.2
      (acc.1 ++ [p.1], p.2)) ([], st)

/-- Number of layer draws recorded for a given render tile. -/
def countTileDraws (k : String) (tr : List RTTEvent) : Nat :=
  (tr.filter (fun e =>
    match e with
    | RTTEvent.draw tk _ _ => tk == k
    | _ => false)).length

/-- Number of draws recorded for a given layer id. -/
def countLayerDraws (lid : String) (tr : List RTTEvent) : Nat :=
  (tr.filter (fun e =>
    match e with
    | RTTEvent.draw _ _ l => l == lid
    | _ => false)).length

/-! ### Concrete scenarios -/

/-- C1 scenario: one fill layer over source `s`, one render tile `t`
composed of the single source tile `a`; nothing ever changes between
frames and no re-render is flagged. -/
def c1Env : RTTEnv :=
  { sources := ["s"],
    visibleCoords := [("s", [{ key := "a" }])],
    terrainCoords := [("a", [("t", { key := "a" })])],
    styleOrder := ["f"],
    layers := [("f", { type := "fill", source := some "s" })],
    needsRerender := [] }

def c1Tile : RTTTile := { tileKey := "t", rttFBOs := [], rttCoords := [] }

/-- Frame 1: initialize and draw everything once. -/
def c1Frame1 : RTTState :=
  (processLayers c1Env (initializeRTT c1Env [c1Tile] emptyRTT)).2

/-- Frame 1 state with the trace reset, so that the trace counts only
the second frame's work. -/
def c1Frame1Reset : RTTState := { c1Frame1 with trace := [] }

/-- Frame 2 initialize. -/
def c1Frame2Init : RTTState :=
  initializeRTT c1Env c1Frame1Reset.renderableTiles c1Frame1Reset

def c1Frame2 : RTTState := (processLayers c1Env c1Frame2Init).2

/-- C3 scenario: two distinct visible source tiles (`p`, `q`) contribute
coordinates with the *same* key `a` to the render tile `t`. -/
def c3Env : RTTEnv :=
  { sources := ["s"],
    visibleCoords := [("s", [{ key := "p" }, { key := "q" }])],
    terrainCoords := [("p", [("t", { key := "a" })]), ("q", [("t", { key := "a" })])],
    styleOrder := ["f"],
    layers := [("f", { type := "fill", source := some "s" })],
    needsRerender := [] }

/-- C6 scenario: layer order [background, fill, symbol, fill, hillshade]
over one render tile. -/
def c6Env : RTTEnv :=
  { sources := ["s", "dem"],
    visibleCoords := [("s", [{ key := "a" }]), ("dem", [{ key := "d" }])],
    terrainCoords := [("a", [("t", { key := "a" })]), ("d", [("t", { key := "d" })])],
    styleOrder := ["l0", "l1", "l2", "l3", "l4"],
    layers := [("l0", { type := "background", source := none }),
               ("l1", { type := "fill", source := some "s" }),
               ("l2", { type := "symbol", source := some "s" }),
               ("l3", { type := "fill", source := some "s" }),
               ("l4", { type := "hillshade", source := some "dem" })],
    needsRerender := [] }

def c6Tile : RTTTile := { tileKey := "t", rttFBOs := [], rttCoords := [] }

def c6Frame1 : List Bool × RTTState :=
  processLayers c6Env (initializeRTT c6Env [c6Tile] emptyRTT)

def c6Frame1Reset : RTTState := { c6Frame1.2 with trace := [] }

def c6Frame2Init : RTTState :=
  initializeRTT c6Env c6Frame1Reset.renderableTiles c6Frame1Reset

def c6Frame2 : RTTState := (processLayers c6Env c6Frame2Init).2

/-! ## Theorems -/

theorem alGet_alSet {α : Type} (l : List (String × α)) (k k' : String) (v : α) :
    alGet (alSet l k v) k' = if k' = k then some v else alGet l k' := by
  induction l with
  | nil =>
    by_cases h : k' = k
    · subst h; simp [alGet, alSet]
    · simp only [alSet, alGet, if_neg h, if_neg (fun h2 : k = k' => h h2.symm)]
  | cons p t ih =>
    obtain ⟨k0, v0⟩ := p
    by_cases h0 : k0 = k
    · subst h0
      by_cases h1 : k0 = k'
      · subst h1; simp [alGet, alSet]
      · simp only [alSet, alGet, if_pos rfl, if_neg h1,
          if_neg (fun h2 : k' = k0 => h1 h2.symm)]
    · by_cases h1 : k0 = k'
      · subst h1
        simp [alSet, alGet, h0]
      · simp only [alSet, alGet, if_neg h0, if_neg h1]
        exact ih

/-! ### Projection lemmas for the pipeline stages -/

@[simp] theorem taskStage_removed (s : MapState) : (taskStage s).removed = s.removed := rfl

@[simp] theorem taskStage_stylePresent (s : MapState) : (taskStage s).stylePresent = s.stylePresent := rfl

@[simp] theorem taskStage_styleDirty (s : MapState) : (taskStage s).styleDirty = s.styleDirty := rfl

@[simp] theorem taskStage_sourcesDirty (s : MapState) : (taskStage s).sourcesDirty = s.sourcesDirty := rfl

@[simp] theorem taskStage_placementDirty (s : MapState) : (taskStage s).placementDirty = s.placementDirty := rfl

@[simp] theorem taskStage_frame (s : MapState) : (taskStage s).frame = s.frame := rfl

@[simp] theorem taskStage_repaint (s : MapState) : (taskStage s).repaint = s.repaint := rfl

@[simp] theorem taskStage_idleEvents (s : MapState) : (taskStage s).idleEvents = s.idleEvents := rfl

@[simp] theorem taskStage_drawCalls (s : MapState) : (taskStage s).drawCalls = s.drawCalls := rfl

@[simp] theorem taskStage_crossFadingFactor (s : MapState) : (taskStage s).crossFadingFactor = s.crossFadingFactor := rfl

@[simp] theorem taskStage_renderCount (s : MapState) : (taskStage s).renderCount = s.renderCount + 1 := rfl

@[simp] theorem triggerRepaint_stylePresent (s : MapState) : (triggerRepaint s).stylePresent = s.stylePresent := by
  simp only [triggerRepaint]; split <;> rfl

@[simp] theorem triggerRepaint_styleDirty (s : MapState) : (triggerRepaint s).styleDirty = s.styleDirty := by
  simp only [triggerRepaint]; split <;> rfl

@[simp] theorem triggerRepaint_sourcesDirty (s : MapState) : (triggerRepaint s).sourcesDirty = s.sourcesDirty := by
  simp only [triggerRepaint]; split <;> rfl

@[simp] theorem triggerRepaint_placementDirty (s : MapState) : (triggerRepaint s).placementDirty = s.placementDirty := by
  simp only [triggerRepaint]; split <;> rfl

@[simp] theorem triggerRepaint_removed (s : MapState) : (triggerRepaint s).removed = s.removed := by
  simp only [triggerRepaint]; split <;> rfl

@[simp] theorem triggerRepaint_repaint (s : MapState) : (triggerRepaint s).repaint = s.repaint := by
  simp only [triggerRepaint]; split <;> rfl

@[simp] theorem triggerRepaint_idleEvents (s : MapState) : (triggerRepaint s).idleEvents = s.idleEvents := by
  simp only [triggerRepaint]; split <;> rfl

@[simp] theorem triggerRepaint_renderCount (s : MapState) : (triggerRepaint s).renderCount = s.renderCount := by
  simp only [triggerRepaint]; split <;> rfl

@[simp] theorem triggerRepaint_drawCalls (s : MapState) : (triggerRepaint s).drawCalls = s.drawCalls := by
  simp only [triggerRepaint]; split <;> rfl

@[simp] theorem triggerRepaint_frame (s : MapState) : (triggerRepaint s).frame = (s.stylePresent || s.frame) := by
  simp only [triggerRepaint]
  cases hp : s.stylePresent <;> cases hf : s.frame <;> simp [hp, hf]

@[simp] theorem styleStage_stylePresent (env : FrameEnv) (s : MapState) :
    (styleStage env s).1.stylePresent = s.stylePresent := by
  simp only [styleStage]; split <;> rfl

@[simp] theorem styleStage_frame (env : FrameEnv) (s : MapState) :
    (styleStage env s).1.frame = s.frame := by
  simp only [styleStage]; split <;> rfl

@[simp] theorem styleStage_removed (env : FrameEnv) (s : MapState) :
    (styleStage env s).1.removed = s.removed := by
  simp only [styleStage]; split <;> rfl

@[simp] theorem styleStage_repaint (env : FrameEnv) (s : MapState) :
    (styleStage env s).1.repaint = s.repaint := by
  simp only [styleStage]; split <;> rfl

@[simp] theorem styleStage_placementDirty (env : FrameEnv) (s : MapState) :
    (styleStage env s).1.placementDirty = s.placementDirty := by
  simp only [styleStage]; split <;> rfl

@[simp] theorem styleStage_idleEvents (env : FrameEnv) (s : MapState) :
    (styleStage env s).1.idleEvents = s.idleEvents := by
  simp only [styleStage]; split <;> rfl

@[simp] theorem styleStage_renderCount (env : FrameEnv) (s : MapState) :
    (styleStage env s).1.renderCount = s.renderCount := by
  simp only [styleStage]; split <;> rfl

@[simp] theorem styleStage_drawCalls (env : FrameEnv) (s : MapState) :
    (styleStage env s).1.drawCalls = s.drawCalls := by
  simp only [styleStage]; split <;> rfl

@[simp] theorem sourcesStage_stylePresent (env : FrameEnv) (s : MapState) :
    (sourcesStage env s).stylePresent = s.stylePresent := by
  simp only [sourcesStage]; split <;> rfl

@[simp] theorem sourcesStage_frame (env : FrameEnv) (s : MapState) :
    (sourcesStage env s).frame = s.frame := by
  simp only [sourcesStage]; split <;> rfl

@[simp] theorem sourcesStage_removed (env : FrameEnv) (s : MapState) :
    (sourcesStage env s).removed = s.removed := by
  simp only [sourcesStage]; split <;> rfl

@[simp] theorem sourcesStage_repaint (env : FrameEnv) (s : MapState) :
    (sourcesStage env s).repaint = s.repaint := by
  simp only [sourcesStage]; split <;> rfl

@[simp] theorem sourcesStage_placementDirty (env : FrameEnv) (s : MapState) :
    (sourcesStage env s).placementDirty = s.placementDirty := by
  simp only [sourcesStage]; split <;> rfl

@[simp] theorem sourcesStage_idleEvents (env : FrameEnv) (s : MapState) :
    (sourcesStage env s).idleEvents = s.idleEvents := by
  simp only [sourcesStage]; split <;> rfl

@[simp] theorem sourcesStage_renderCount (env : FrameEnv) (s : MapState) :
    (sourcesStage env s).renderCount = s.renderCount := by
  simp only [sourcesStage]; split <;> rfl

@[simp] theorem sourcesStage_drawCalls (env : FrameEnv) (s : MapState) :
    (sourcesStage env s).drawCalls = s.drawCalls := by
  simp only [sourcesStage]; split <;> rfl

theorem sourcesStage_styleDirty (env : FrameEnv) (s : MapState) :
    (sourcesStage env s).styleDirty
      = (s.styleDirty || (s.stylePresent && s.sourcesDirty && env.srcUpdSetsStyleDirty)) := by
  simp only [sourcesStage]
  cases h : (s.stylePresent && s.sourcesDirty) <;> simp_all

@[simp] theorem placementStage_stylePresent (env : FrameEnv) (s : MapState) :
    (placementStage env s).stylePresent = s.stylePresent := rfl

@[simp] theorem placementStage_styleDirty (env : FrameEnv) (s : MapState) :
    (placementStage env s).styleDirty = s.styleDirty := rfl

@[simp] theorem placementStage_sourcesDirty (env : FrameEnv) (s : MapState) :
    (placementStage env s).sourcesDirty = s.sourcesDirty := rfl

@[simp] theorem placementStage_frame (env : FrameEnv) (s : MapState) :
    (placementStage env s).frame = s.frame := rfl

@[simp] theorem placementStage_removed (env : FrameEnv) (s : MapState) :
    (placementStage env s).removed = s.removed := rfl

@[simp] theorem placementStage_repaint (env : FrameEnv) (s : MapState) :
    (placementStage env s).repaint = s.repaint := rfl

@[simp] theorem placementStage_idleEvents (env : FrameEnv) (s : MapState) :
    (placementStage env s).idleEvents = s.idleEvents := rfl

@[simp] theorem placementStage_renderCount (env : FrameEnv) (s : MapState) :
    (placementStage env s).renderCount = s.renderCount := rfl

@[simp] theorem placementStage_drawCalls (env : FrameEnv) (s : MapState) :
    (placementStage env s).drawCalls = s.drawCalls := rfl

@[simp] theorem placementStage_placementDirty (env : FrameEnv) (s : MapState) :
    (placementStage env s).placementDirty = (s.stylePresent && env.placementResult) := rfl

@[simp] theorem drawStage_stylePresent (s : MapState) : (drawStage s).stylePresent = s.stylePresent := rfl

@[simp] theorem drawStage_styleDirty (s : MapState) : (drawStage s).styleDirty = s.styleDirty := rfl

@[simp] theorem drawStage_sourcesDirty (s : MapState) : (drawStage s).sourcesDirty = s.sourcesDirty := rfl

@[simp] theorem drawStage_placementDirty (s : MapState) : (drawStage s).placementDirty = s.placementDirty := rfl

@[simp] theorem drawStage_frame (s : MapState) : (drawStage s).frame = s.frame := rfl

@[simp] theorem drawStage_removed (s : MapState) : (drawStage s).removed = s.removed := rfl

@[simp] theorem drawStage_repaint (s : MapState) : (drawStage s).repaint = s.repaint := rfl

@[simp] theorem drawStage_idleEvents (s : MapState) : (drawStage s).idleEvents = s.idleEvents := rfl

@[simp] theorem drawStage_renderCount (s : MapState) : (drawStage s).renderCount = s.renderCount := rfl

@[simp] theorem drawStage_drawCalls (s : MapState) : (drawStage s).drawCalls = s.drawCalls + 1 := rfl

@[simp] theorem loadStage_stylePresent (env : FrameEnv) (s : MapState) :
    (loadStage env s).stylePresent = s.stylePresent := by
  simp only [loadStage]; split <;> rfl

@[simp] theorem loadStage_styleDirty (env : FrameEnv) (s : MapState) :
    (loadStage env s).styleDirty = s.styleDirty := by
  simp only [loadStage]; split <;> rfl

@[simp] theorem loadStage_sourcesDirty (env : FrameEnv) (s : MapState) :
    (loadStage env s).sourcesDirty = s.sourcesDirty := by
  simp only [loadStage]; split <;> rfl

@[simp] theorem loadStage_placementDirty (env : FrameEnv) (s : MapState) :
    (loadStage env s).placementDirty = s.placementDirty := by
  simp only [loadStage]; split <;> rfl

@[simp] theorem loadStage_frame (env : FrameEnv) (s : MapState) :
    (loadStage env s).frame = s.frame := by
  simp only [loadStage]; split <;> rfl

@[simp] theorem loadStage_removed (env : FrameEnv) (s : MapState) :
    (loadStage env s).removed = s.removed := by
  simp only [loadStage]; split <;> rfl

@[simp] theorem loadStage_repaint (env : FrameEnv) (s : MapState) :
    (loadStage env s).repaint = s.repaint := by
  simp only [loadStage]; split <;> rfl

@[simp] theorem loadStage_idleEvents (env : FrameEnv) (s : MapState) :
    (loadStage env s).idleEvents = s.idleEvents := by
  simp only [loadStage]; split <;> rfl

@[simp] theorem loadStage_renderCount (env : FrameEnv) (s : MapState) :
    (loadStage env s).renderCount = s.renderCount := by
  simp only [loadStage]; split <;> rfl

@[simp] theorem loadStage_drawCalls (env : FrameEnv) (s : MapState) :
    (loadStage env s).drawCalls = s.drawCalls := by
  simp only [loadStage]; split <;> rfl

@[simp] theorem transitionStage_stylePresent (env : FrameEnv) (cf : Bool) (s : MapState) :
    (transitionStage env cf s).stylePresent = s.stylePresent := by
  simp only [transitionStage]; split <;> rfl

@[simp] theorem transitionStage_sourcesDirty (env : FrameEnv) (cf : Bool) (s : MapState) :
    (transitionStage env cf s).sourcesDirty = s.sourcesDirty := by
  simp only [transitionStage]; split <;> rfl

@[simp] theorem transitionStage_placementDirty (env : FrameEnv) (cf : Bool) (s : MapState) :
    (transitionStage env cf s).placementDirty = s.placementDirty := by
  simp only [transitionStage]; split <;> rfl

@[simp] theorem transitionStage_frame (env : FrameEnv) (cf : Bool) (s : MapState) :
    (transitionStage env cf s).frame = s.frame := by
  simp only [transitionStage]; split <;> rfl

@[simp] theorem transitionStage_removed (env : FrameEnv) (cf : Bool) (s : MapState) :
    (transitionStage env cf s).removed = s.removed := by
  simp only [transitionStage]; split <;> rfl

@[simp] theorem transitionStage_repaint (env : FrameEnv) (cf : Bool) (s : MapState) :
    (transitionStage env cf s).repaint = s.repaint := by
  simp only [transitionStage]; split <;> rfl

@[simp] theorem transitionStage_idleEvents (env : FrameEnv) (cf : Bool) (s : MapState) :
    (transitionStage env cf s).idleEvents = s.idleEvents := by
  simp only [transitionStage]; split <;> rfl

@[simp] theorem transitionStage_renderCount (env : FrameEnv) (cf : Bool) (s : MapState) :
    (transitionStage env cf s).renderCount = s.renderCount := by
  simp only [transitionStage]; split <;> rfl

@[simp] theorem transitionStage_drawCalls (env : FrameEnv) (cf : Bool) (s : MapState) :
    (transitionStage env cf s).drawCalls = s.drawCalls := by
  simp only [transitionStage]; split <;> rfl

theorem transitionStage_styleDirty (env : FrameEnv) (cf : Bool) (s : MapState) :
    (transitionStage env cf s).styleDirty
      = ((s.stylePresent && (env.hasTransitions || cf)) || s.styleDirty) := by
  simp only [transitionStage]
  cases h : (s.stylePresent && (env.hasTransitions || cf)) <;> simp_all

@[simp] theorem scheduleStage_stylePresent (env : FrameEnv) (s : MapState) :
    (scheduleStage env s).stylePresent = s.stylePresent := by
  simp only [scheduleStage, triggerRepaint]; split <;> (try split) <;> rfl

@[simp] theorem scheduleStage_styleDirty (env : FrameEnv) (s : MapState) :
    (scheduleStage env s).styleDirty = s.styleDirty := by
  simp only [scheduleStage, triggerRepaint]; split <;> (try split) <;> rfl

@[simp] theorem scheduleStage_sourcesDirty (env : FrameEnv) (s : MapState) :
    (scheduleStage env s).sourcesDirty = s.sourcesDirty := by
  simp only [scheduleStage, triggerRepaint]; split <;> (try split) <;> rfl

@[simp] theorem scheduleStage_placementDirty (env : FrameEnv) (s : MapState) :
    (scheduleStage env s).placementDirty = s.placementDirty := by
  simp only [scheduleStage, triggerRepaint]; split <;> (try split) <;> rfl

@[simp] theorem scheduleStage_removed (env : FrameEnv) (s : MapState) :
    (scheduleStage env s).removed = s.removed := by
  simp only [scheduleStage, triggerRepaint]; split <;> (try split) <;> rfl

@[simp] theorem scheduleStage_repaint (env : FrameEnv) (s : MapState) :
    (scheduleStage env s).repaint = s.repaint := by
  simp only [scheduleStage, triggerRepaint]; split <;> (try split) <;> rfl

@[simp] theorem scheduleStage_renderCount (env : FrameEnv) (s : MapState) :
    (scheduleStage env s).renderCount = s.renderCount := by
  simp only [scheduleStage, triggerRepaint]; split <;> (try split) <;> rfl

@[simp] theorem scheduleStage_drawCalls (env : FrameEnv) (s : MapState) :
    (scheduleStage env s).drawCalls = s.drawCalls := by
  simp only [scheduleStage, triggerRepaint]; split <;> (try split) <;> rfl

/-! ### Behaviour of `_render` -/

/-- When the map has not been removed, `_render` runs the full pipeline. -/
theorem render_pipeline (env : FrameEnv) (s : MapState) (h : s.removed = false) :
    render env s = scheduleStage env (transitionStage env (styleStage env (taskStage s)).2
      (loadStage env (drawStage (placementStage env
        (sourcesStage env (styleStage env (taskStage s)).1))))) := by
  simp [render, h]

/-- Every `_render` invocation is counted exactly once, whether or not the
`_removed` guard fires. -/
theorem render_renderCount (env : FrameEnv) (s : MapState) :
    (render env s).renderCount = s.renderCount + 1 := by
  simp only [render]
  split
  · simp
  · simp

/-- After `remove()`, `_render` drains the task queue and then returns at
the `_removed` guard, before `painter.render`. -/
theorem render_removed (env : FrameEnv) (s : MapState) (h : s.removed = true) :
    render env s = taskStage s := by
  simp [render, h]

/-- The taken `_styleDirty` branch of `_render`. -/
theorem styleStage_taken (env : FrameEnv) (s : MapState)
    (h : (s.stylePresent && s.styleDirty) = true) :
    (styleStage env s).1.styleDirty = env.styleUpdSetsStyleDirty ∧
    (styleStage env s).1.sourcesDirty = (s.sourcesDirty || env.styleUpdSetsSourcesDirty) ∧
    (styleStage env s).2
      = (!(decide (env.crossFadeFactor = 1))
          || !(decide (env.crossFadeFactor = s.crossFadingFactor))) := by
  simp [styleStage, h]

/-- End-of-frame scheduling: the `idle` event fires exactly when nothing
is dirty, continuous repaint is off, the camera is still and the map is
loaded; otherwise, when something is dirty or continuous repaint is on, a
frame is re-requested. -/
theorem scheduleStage_idle_frame (env : FrameEnv) (t : MapState)
    (hp : t.stylePresent = true) (hf : t.frame = false) :
    ((scheduleStage env t).idleEvents
       = t.idleEvents +
         (if (t.sourcesDirty || t.styleDirty || t.placementDirty || t.repaint) = false
             ∧ env.isMoving = false ∧ env.styleLoaded = true then 1 else 0)) ∧
    ((scheduleStage env t).frame
       = (t.sourcesDirty || t.styleDirty || t.placementDirty || t.repaint)) := by
  cases h1 : t.sourcesDirty <;> cases h2 : t.styleDirty <;>
    cases h3 : t.placementDirty <;> cases h4 : t.repaint <;>
    cases h5 : env.isMoving <;> cases h6 : env.styleLoaded <;>
    simp [scheduleStage, triggerRepaint, mapLoaded, hp, hf, h1, h2, h3, h4, h5, h6]

/-- A dirty-marking call on a map that has a style leaves a frame handle
pending, preserves style presence, and performs no synchronous render or
draw. -/
theorem applyDirty_props (op : DirtyOp) (s : MapState) (hp : s.stylePresent = true) :
    (applyDirty op s).stylePresent = true ∧
    (applyDirty op s).frame = true ∧
    (applyDirty op s).renderCount = s.renderCount ∧
    (applyDirty op s).drawCalls = s.drawCalls := by
  cases op <;> simp [applyDirty, update, hp]

/-- Any sequence of dirty-marking calls on a style-present map with a
pending frame leaves the frame pending and never renders or draws. -/
theorem applyDirtyOps_props (ops : List DirtyOp) (s : MapState)
    (hp : s.stylePresent = true) (hf : s.frame = true) :
    (applyDirtyOps ops s).stylePresent = true ∧
    (applyDirtyOps ops s).frame = true ∧
    (applyDirtyOps ops s).renderCount = s.renderCount ∧
    (applyDirtyOps ops s).drawCalls = s.drawCalls := by
  induction ops generalizing s with
  | nil => exact ⟨hp, hf, rfl, rfl⟩
  | cons op rest ih =>
    simp only [applyDirtyOps, List.foldl_cons] at *
    obtain ⟨p1, p2, p3, p4⟩ := applyDirty_props op s hp
    obtain ⟨q1, q2, q3, q4⟩ := ih (applyDirty op s) p1 p2
    exact ⟨q1, q2, q3.trans p3, q4.trans p4⟩

/-- C2: At most one scheduled frame is ever outstanding: any number N ≥ 1
of `triggerRepaint` / `_update` calls on a style-present map leaves
exactly one frame handle pending and performs no synchronous render, and
the following animation tick executes the `_render` pipeline exactly
once. -/
theorem c2_repaint_coalescing (s : MapState) (ops : List DirtyOp) (env : FrameEnv)
    (h1 : s.stylePresent = true) (h2 : 1 ≤ ops.length) :
    (applyDirtyOps ops s).frame = true ∧
    (applyDirtyOps ops s).renderCount = s.renderCount ∧
    (applyDirtyOps ops s).drawCalls = s.drawCalls ∧
    (tick env (applyDirtyOps ops s)).renderCount = s.renderCount + 1 := by
  cases ops with
  | nil => simp at h2
  | cons op rest =>
    have hcons : applyDirtyOps (op :: rest) s = applyDirtyOps rest (applyDirty op s) := rfl
    rw [hcons]
    obtain ⟨p1, p2, p3, p4⟩ := applyDirty_props op s h1
    obtain ⟨q1, q2, q3, q4⟩ := applyDirtyOps_props rest (applyDirty op s) p1 p2
    refine ⟨q2, q3.trans p3, q4.trans p4, ?_⟩
    simp [tick, q2, render_renderCount, q3.trans p3]

/-- C2 witness: two `triggerRepaint` calls followed by one `_update`
coalesce into a single pending frame and a single `_render` on the next
tick. -/
theorem c2_repaint_coalescing_witness :
    (applyDirtyOps [DirtyOp.trig, DirtyOp.trig, DirtyOp.upd true]
        { stylePresent := true, styleDirty := false, sourcesDirty := false,
          placementDirty := false, frame := false, removed := false, repaint := false,
          isLoaded := false, crossFadingFactor := 1, renderCount := 0, drawCalls := 0,
          idleEvents := 0 }).frame = true ∧
    (applyDirtyOps [DirtyOp.trig, DirtyOp.trig, DirtyOp.upd true]
        { stylePresent := true, styleDirty := false, sourcesDirty := false,
          placementDirty := false, frame := false, removed := false, repaint := false,
          isLoaded := false, crossFadingFactor := 1, renderCount := 0, drawCalls := 0,
          idleEvents := 0 }).renderCount = 0 ∧
    (applyDirtyOps [DirtyOp.trig, DirtyOp.trig, DirtyOp.upd true]
        { stylePresent := true, styleDirty := false, sourcesDirty := false,
          placementDirty := false, frame := false, removed := false, repaint := false,
          isLoaded := false, crossFadingFactor := 1, renderCount := 0, drawCalls := 0,
          idleEvents := 0 }).drawCalls = 0 ∧
    (tick { crossFadeFactor := 1, hasTransitions := false, styleLoaded := true,
            isMoving := false, placementResult := false,
            styleUpdSetsStyleDirty := false, styleUpdSetsSourcesDirty := false,
            srcUpdSetsStyleDirty := false, srcUpdSetsSourcesDirty := false }
        (applyDirtyOps [DirtyOp.trig, DirtyOp.trig, DirtyOp.upd true]
          { stylePresent := true, styleDirty := false, sourcesDirty := false,
            placementDirty := false, frame := false, removed := false, repaint := false,
            isLoaded := false, crossFadingFactor := 1, renderCount := 0, drawCalls := 0,
            idleEvents := 0 })).renderCount = 0 + 1 :=
  c2_repaint_coalescing _ _ _ rfl (by decide)

/-- C5: during a `_render` frame that consumes `_styleDirty`, a crossfade
factor that differs from the stored one forces `_styleDirty = true`
before the frame ends, while a factor stabilised at 1 (computed and
stored both 1) forces nothing, so absent transitions and synchronous
re-dirtying the flag ends the frame false. -/
theorem c5_crossfade_forcing (env : FrameEnv) (s : MapState)
    (h1 : s.removed = false) (h2 : s.stylePresent = true) (h3 : s.styleDirty = true) :
    (env.crossFadeFactor ≠ s.crossFadingFactor → (render env s).styleDirty = true) ∧
    (env.crossFadeFactor = 1 → s.crossFadingFactor = 1 → env.hasTransitions = false →
      env.styleUpdSetsStyleDirty = false → env.srcUpdSetsStyleDirty = false →
      (render env s).styleDirty = false) := by
  rw [render_pipeline env s h1]
  obtain ⟨e1, e2, e3⟩ := styleStage_taken env (taskStage s) (by simp [h2, h3])
  rw [scheduleStage_styleDirty, transitionStage_styleDirty, loadStage_styleDirty,
    drawStage_styleDirty, placementStage_styleDirty, sourcesStage_styleDirty]
  simp only [loadStage_stylePresent, drawStage_stylePresent, placementStage_stylePresent,
    sourcesStage_stylePresent, styleStage_stylePresent, taskStage_stylePresent,
    taskStage_crossFadingFactor, e1, e3, h2]
  constructor
  · intro hne
    simp [hne]
  · intro f1 f2 fT fS fR
    simp [f1, f2, fT, fS, fR]

/-- C5 witness: with computed factor 2 and stored factor 1 the frame ends
with `_styleDirty = true` again. -/
theorem c5_crossfade_forcing_witness :
    (render
      { crossFadeFactor := 2, hasTransitions := false, styleLoaded := true,
        isMoving := false, placementResult := false,
        styleUpdSetsStyleDirty := false, styleUpdSetsSourcesDirty := false,
        srcUpdSetsStyleDirty := false, srcUpdSetsSourcesDirty := false }
      { stylePresent := true, styleDirty := true, sourcesDirty := false,
        placementDirty := false, frame := false, removed := false, repaint := false,
        isLoaded := false, crossFadingFactor := 1, renderCount := 0, drawCalls := 0,
        idleEvents := 0 }).styleDirty = true :=
  (c5_crossfade_forcing _ _ rfl rfl rfl).1 (by norm_num)

/-- Post-teardown states absorb every scheduler event: no draw ever
happens again, the removed flag stays set, no style returns and no frame
is ever scheduled. -/
theorem applyActs_teardown (acts : List Act) (t : MapState)
    (h1 : t.removed = true) (h2 : t.stylePresent = false) (h3 : t.frame = false) :
    (applyActs acts t).drawCalls = t.drawCalls ∧
    (applyActs acts t).removed = true ∧
    (applyActs acts t).stylePresent = false ∧
    (applyActs acts t).frame = false := by
  induction acts generalizing t with
  | nil => exact ⟨rfl, h1, h2, h3⟩
  | cons a rest ih =>
    cases a with
    | upd b =>
      have ha : applyAct (Act.upd b) t = t := by simp [applyAct, update, h2]
      have hcons : applyActs (Act.upd b :: rest) t = applyActs rest t := by
        simp only [applyActs, List.foldl_cons]
        rw [ha]
      rw [hcons]
      exact ih t h1 h2 h3
    | trig =>
      have ha : applyAct Act.trig t = t := by simp [applyAct, triggerRepaint, h2]
      have hcons : applyActs (Act.trig :: rest) t = applyActs rest t := by
        simp only [applyActs, List.foldl_cons]
        rw [ha]
      rw [hcons]
      exact ih t h1 h2 h3
    | frameTick env =>
      have ha : applyAct (Act.frameTick env) t = t := by simp [applyAct, tick, h3]
      have hcons : applyActs (Act.frameTick env :: rest) t = applyActs rest t := by
        simp only [applyActs, List.foldl_cons]
        rw [ha]
      rw [hcons]
      exact ih t h1 h2 h3
    | renderCall env =>
      have ha : applyAct (Act.renderCall env) t = taskStage t := render_removed env t h1
      have hcons : applyActs (Act.renderCall env :: rest) t = applyActs rest (taskStage t) := by
        simp only [applyActs, List.foldl_cons]
        rw [ha]
      rw [hcons]
      obtain ⟨r1, r2, r3, r4⟩ :=
        ih (taskStage t) (by simp [h1]) (by simp [h2]) (by simp [h3])
      exact ⟨r1.trans rfl, r2, r3, r4⟩

/-- C7: after `remove()` no further pipeline execution occurs: the
outstanding frame handle is cancelled, the removed flag is set, and no
sequence of later events (asynchronous `_update`/`triggerRepaint`
callbacks, animation ticks, or direct `_render` invocations) ever
increases the draw-call count. -/
theorem c7_remove_stops_pipeline (s : MapState) (acts : List Act) :
    (remove s).frame = false ∧
    (remove s).removed = true ∧
    (applyActs acts (remove s)).drawCalls = s.drawCalls ∧
    (applyActs acts (remove s)).removed = true := by
  obtain ⟨r1, r2, r3, r4⟩ := applyActs_teardown acts (remove s) rfl rfl rfl
  exact ⟨rfl, rfl, r1.trans rfl, r2⟩

/-- C8 (amended): at the end of a `_render` frame on a live,
style-present map with no pending handle, if nothing is dirty,
continuous repaint is off, the camera is still AND the map reports
loaded (`style.loaded()` true), exactly one `idle` fires and no frame is
re-requested (so none fires again until a dirty-marking call schedules
one); if something is dirty or continuous repaint is on, a frame is
re-requested and no `idle` fires. -/
theorem c8_idle_emission (env : FrameEnv) (s : MapState)
    (h1 : s.removed = false) (h2 : s.stylePresent = true) (h3 : s.frame = false) :
    ((render env s).sourcesDirty = false → (render env s).styleDirty = false →
      (render env s).placementDirty = false → s.repaint = false →
      env.isMoving = false → env.styleLoaded = true →
      (render env s).idleEvents = s.idleEvents + 1 ∧ (render env s).frame = false) ∧
    (((render env s).sourcesDirty = true ∨ (render env s).styleDirty = true ∨
      (render env s).placementDirty = true ∨ s.repaint = true) →
      (render env s).idleEvents = s.idleEvents ∧ (render env s).frame = true) := by
  rw [render_pipeline env s h1]
  set T := transitionStage env (styleStage env (taskStage s)).2
      (loadStage env (drawStage (placementStage env
        (sourcesStage env (styleStage env (taskStage s)).1)))) with hT
  have hp : T.stylePresent = true := by rw [hT]; simp [h2]
  have hf : T.frame = false := by rw [hT]; simp [h3]
  have hrp : T.repaint = s.repaint := by rw [hT]; simp
  have hie : T.idleEvents = s.idleEvents := by rw [hT]; simp
  obtain ⟨e1, e2⟩ := scheduleStage_idle_frame env T hp hf
  rw [scheduleStage_sourcesDirty, scheduleStage_styleDirty, scheduleStage_placementDirty]
  constructor
  · intro a1 a2 a3 a4 a5 a6
    refine ⟨?_, ?_⟩
    · rw [e1, hie, a1, a2, a3, hrp, a4]
      simp [a5, a6]
    · rw [e2, a1, a2, a3, hrp, a4]
      rfl
  · intro hd
    refine ⟨?_, ?_⟩
    · rw [e1, hie, hrp]
      rcases hd with h | h | h | h <;> simp [h]
    · rw [e2, hrp]
      rcases hd with h | h | h | h <;> simp [h]

/-- C8 counterexample: with everything clean, repaint off and the camera
still but the style not yet loaded (`style.loaded()` false, e.g. tiles
in flight), the code fires no `idle` event, while the claim demands
exactly one. -/
theorem c8_idle_counterexample :
    (render
      { crossFadeFactor := 1, hasTransitions := false, styleLoaded := false,
        isMoving := false, placementResult := false,
        styleUpdSetsStyleDirty := false, styleUpdSetsSourcesDirty := false,
        srcUpdSetsStyleDirty := false, srcUpdSetsSourcesDirty := false }
      { stylePresent := true, styleDirty := false, sourcesDirty := false,
        placementDirty := false, frame := false, removed := false, repaint := false,
        isLoaded := false, crossFadingFactor := 1, renderCount := 0, drawCalls := 0,
        idleEvents := 0 }).sourcesDirty = false ∧
    (render
      { crossFadeFactor := 1, hasTransitions := false, styleLoaded := false,
        isMoving := false, placementResult := false,
        styleUpdSetsStyleDirty := false, styleUpdSetsSourcesDirty := false,
        srcUpdSetsStyleDirty := false, srcUpdSetsSourcesDirty := false }
      { stylePresent := true, styleDirty := false, sourcesDirty := false,
        placementDirty := false, frame := false, removed := false, repaint := false,
        isLoaded := false, crossFadingFactor := 1, renderCount := 0, drawCalls := 0,
        idleEvents := 0 }).styleDirty = false ∧
    (render
      { crossFadeFactor := 1, hasTransitions := false, styleLoaded := false,
        isMoving := false, placementResult := false,
        styleUpdSetsStyleDirty := false, styleUpdSetsSourcesDirty := false,
        srcUpdSetsStyleDirty := false, srcUpdSetsSourcesDirty := false }
      { stylePresent := true, styleDirty := false, sourcesDirty := false,
        placementDirty := false, frame := false, removed := false, repaint := false,
        isLoaded := false, crossFadingFactor := 1, renderCount := 0, drawCalls := 0,
        idleEvents := 0 }).placementDirty = false ∧
    (render
      { crossFadeFactor := 1, hasTransitions := false, styleLoaded := false,
        isMoving := false, placementResult := false,
        styleUpdSetsStyleDirty := false, styleUpdSetsSourcesDirty := false,
        srcUpdSetsStyleDirty := false, srcUpdSetsSourcesDirty := false }
      { stylePresent := true, styleDirty := false, sourcesDirty := false,
        placementDirty := false, frame := false, removed := false, repaint := false,
        isLoaded := false, crossFadingFactor := 1, renderCount := 0, drawCalls := 0,
        idleEvents := 0 }).idleEvents = 0 ∧
    ¬((render
      { crossFadeFactor := 1, hasTransitions := false, styleLoaded := false,
        isMoving := false, placementResult := false,
        styleUpdSetsStyleDirty := false, styleUpdSetsSourcesDirty := false,
        srcUpdSetsStyleDirty := false, srcUpdSetsSourcesDirty := false }
      { stylePresent := true, styleDirty := false, sourcesDirty := false,
        placementDirty := false, frame := false, removed := false, repaint := false,
        isLoaded := false, crossFadingFactor := 1, renderCount := 0, drawCalls := 0,
        idleEvents := 0 }).idleEvents = 0 + 1) := by
  decide

/-- C8 witness: a clean, loaded, motionless frame fires exactly one
`idle` and leaves no frame pending. -/
theorem c8_idle_emission_witness :
    (render
      { crossFadeFactor := 1, hasTransitions := false, styleLoaded := true,
        isMoving := false, placementResult := false,
        styleUpdSetsStyleDirty := false, styleUpdSetsSourcesDirty := false,
        srcUpdSetsStyleDirty := false, srcUpdSetsSourcesDirty := false }
      { stylePresent := true, styleDirty := false, sourcesDirty := false,
        placementDirty := false, frame := false, removed := false, repaint := false,
        isLoaded := true, crossFadingFactor := 1, renderCount := 0, drawCalls := 0,
        idleEvents := 0 }).idleEvents = 0 + 1 ∧
    (render
      { crossFadeFactor := 1, hasTransitions := false, styleLoaded := true,
        isMoving := false, placementResult := false,
        styleUpdSetsStyleDirty := false, styleUpdSetsSourcesDirty := false,
        srcUpdSetsStyleDirty := false, srcUpdSetsSourcesDirty := false }
      { stylePresent := true, styleDirty := false, sourcesDirty := false,
        placementDirty := false, frame := false, removed := false, repaint := false,
        isLoaded := true, crossFadingFactor := 1, renderCount := 0, drawCalls := 0,
        idleEvents := 0 }).frame = false :=
  (c8_idle_emission _ _ rfl rfl rfl).1 (by decide) (by decide) (by decide) rfl rfl rfl

/-- C9: `_update(updateStyle)` with a style present marks the sources
dirty unconditionally, ors `updateStyle` into the style-dirty flag,
leaves a frame pending, and draws nothing synchronously. -/
theorem c9_update_marks_dirty (s : MapState) (b : Bool) (h : s.stylePresent = true) :
    (update b s).sourcesDirty = true ∧
    (update b s).styleDirty = (s.styleDirty || b) ∧
    (update b s).frame = true ∧
    (update b s).renderCount = s.renderCount ∧
    (update b s).drawCalls = s.drawCalls := by
  simp [update, h]

/-- C9 witness at a concrete style-present state. -/
theorem c9_update_marks_dirty_witness :
    (update false
      { stylePresent := true, styleDirty := false, sourcesDirty := false,
        placementDirty := false, frame := false, removed := false, repaint := false,
        isLoaded := false, crossFadingFactor := 1, renderCount := 3, drawCalls := 2,
        idleEvents := 1 }).sourcesDirty = true ∧
    (update false
      { stylePresent := true, styleDirty := false, sourcesDirty := false,
        placementDirty := false, frame := false, removed := false, repaint := false,
        isLoaded := false, crossFadingFactor := 1, renderCount := 3, drawCalls := 2,
        idleEvents := 1 }).styleDirty = (false || false) ∧
    (update false
      { stylePresent := true, styleDirty := false, sourcesDirty := false,
        placementDirty := false, frame := false, removed := false, repaint := false,
        isLoaded := false, crossFadingFactor := 1, renderCount := 3, drawCalls := 2,
        idleEvents := 1 }).frame = true ∧
    (update false
      { stylePresent := true, styleDirty := false, sourcesDirty := false,
        placementDirty := false, frame := false, removed := false, repaint := false,
        isLoaded := false, crossFadingFactor := 1, renderCount := 3, drawCalls := 2,
        idleEvents := 1 }).renderCount = 3 ∧
    (update false
      { stylePresent := true, styleDirty := false, sourcesDirty := false,
        placementDirty := false, frame := false, removed := false, repaint := false,
        isLoaded := false, crossFadingFactor := 1, renderCount := 3, drawCalls := 2,
        idleEvents := 1 }).drawCalls = 2 :=
  c9_update_marks_dirty _ false rfl

/-- C10: with no style present (in particular after teardown's
`setStyle(null)`), `_update` and `triggerRepaint` are complete no-ops. -/
theorem c10_no_style_noop (s t : MapState) (b : Bool) (h : s.stylePresent = false) :
    update b s = s ∧ triggerRepaint s = s ∧
    update b (remove t) = remove t ∧ triggerRepaint (remove t) = remove t := by
  refine ⟨?_, ?_, ?_, ?_⟩
  · simp [update, h]
  · simp [triggerRepaint, h]
  · simp [update, remove]
  · simp [triggerRepaint, remove]

/-- C10 witness at a concrete style-less state. -/
theorem c10_no_style_noop_witness :
    update true
      { stylePresent := false, styleDirty := false, sourcesDirty := false,
        placementDirty := false, frame := false, removed := false, repaint := false,
        isLoaded := false, crossFadingFactor := 1, renderCount := 0, drawCalls := 0,
        idleEvents := 0 }
      = { stylePresent := false, styleDirty := false, sourcesDirty := false,
          placementDirty := false, frame := false, removed := false, repaint := false,
          isLoaded := false, crossFadingFactor := 1, renderCount := 0, drawCalls := 0,
          idleEvents := 0 } ∧
    triggerRepaint
      { stylePresent := false, styleDirty := false, sourcesDirty := false,
        placementDirty := false, frame := false, removed := false, repaint := false,
        isLoaded := false, crossFadingFactor := 1, renderCount := 0, drawCalls := 0,
        idleEvents := 0 }
      = { stylePresent := false, styleDirty := false, sourcesDirty := false,
          placementDirty := false, frame := false, removed := false, repaint := false,
          isLoaded := false, crossFadingFactor := 1, renderCount := 0, drawCalls := 0,
          idleEvents := 0 } ∧
    update true (remove
      { stylePresent := true, styleDirty := true, sourcesDirty := true,
        placementDirty := false, frame := true, removed := false, repaint := false,
        isLoaded := true, crossFadingFactor := 1, renderCount := 5, drawCalls := 4,
        idleEvents := 2 })
      = remove
      { stylePresent := true, styleDirty := true, sourcesDirty := true,
        placementDirty := false, frame := true, removed := false, repaint := false,
        isLoaded := true, crossFadingFactor := 1, renderCount := 5, drawCalls := 4,
        idleEvents := 2 } ∧
    triggerRepaint (remove
      { stylePresent := true, styleDirty := true, sourcesDirty := true,
        placementDirty := false, frame := true, removed := false, repaint := false,
        isLoaded := true, crossFadingFactor := 1, renderCount := 5, drawCalls := 4,
        idleEvents := 2 })
      = remove
      { stylePresent := true, styleDirty := true, sourcesDirty := true,
        placementDirty := false, frame := true, removed := false, repaint := false,
        isLoaded := true, crossFadingFactor := 1, renderCount := 5, drawCalls := 4,
        idleEvents := 2 } :=
  c10_no_style_noop _ _ true rfl

/-! ### Render-to-texture theorems -/

/-- The per-tile loop of `initialize` never touches
`_coordsDescendingInvStr`. -/
theorem foldl_initStep_str (env : RTTEnv) (strMap : List (String × List (String × String)))
    (ts : List RTTTile) (st : RTTState) :
    (ts.foldl (initStep env strMap) st).coordsDescendingInvStr
      = st.coordsDescendingInvStr := by
  induction ts generalizing st with
  | nil => rfl
  | cons t rest ih =>
    rw [List.foldl_cons, ih]
    rfl

/-- After `initialize`, the stored `_coordsDescendingInvStr` is exactly
the serialization of the freshly computed `_coordsDescendingInv`. -/
theorem initializeRTT_str (env : RTTEnv) (tiles : List RTTTile) (s : RTTState) :
    (initializeRTT env tiles s).coordsDescendingInvStr
      = computeStr env (computeInv env) := by
  unfold initializeRTT
  rw [foldl_initStep_str]

/-- Each step of the `_coordsDescendingInvStr` fill loop preserves the
property that every stored row is the per-key sorted join of the
corresponding `_coordsDescendingInv` row. -/
theorem strStep_entries (env : RTTEnv)
    (inv : List (String × List (String × List SrcTileID)))
    (acc : List (String × List (String × String))) (id : String)
    (hacc : ∀ src inn, alGet acc src = some inn →
      inn = ((alGet inv src).getD []).map (fun kv => (kv.1, joinKeys kv.2))) :
    ∀ src inn, alGet (strStep env inv acc id) src = some inn →
      inn = ((alGet inv src).getD []).map (fun kv => (kv.1, joinKeys kv.2)) := by
  intro src inn h
  simp only [strStep] at h
  split at h
  · split at h
    · exact hacc src inn h
    · rw [alGet_alSet] at h
      by_cases hs :
          src = srcKey ((alGet env.layers id).getD { type := "", source := none }).source
      · rw [if_pos hs] at h
        injection h with h2
        subst hs
        exact h2.symm
      · rw [if_neg hs] at h
        exact hacc src inn h
  · exact hacc src inn h

/-- Every row of `computeStr` is the per-key sorted join of the
corresponding `_coordsDescendingInv` row. -/
theorem computeStr_entries (env : RTTEnv)
    (inv : List (String × List (String × List SrcTileID)))
    (src : String) (inn : List (String × String))
    (h : alGet (computeStr env inv) src = some inn) :
    inn = ((alGet inv src).getD []).map (fun kv => (kv.1, joinKeys kv.2)) := by
  suffices key : ∀ (order : List String) (acc : List (String × List (String × String))),
      (∀ src2 inn2, alGet acc src2 = some inn2 →
        inn2 = ((alGet inv src2).getD []).map (fun kv => (kv.1, joinKeys kv.2))) →
      ∀ src2 inn2, alGet (order.foldl (strStep env inv) acc) src2 = some inn2 →
        inn2 = ((alGet inv src2).getD []).map (fun kv => (kv.1, joinKeys kv.2)) by
    exact key env.styleOrder [] (by intro src2 inn2 hx; simp [alGet] at hx) src inn h
  intro order
  induction order with
  | nil => intro acc hacc; exact hacc
  | cons id rest ih =>
    intro acc hacc
    rw [List.foldl_cons]
    exact ih (strStep env inv acc id) (strStep_entries env inv acc id hacc)

/-- C3 (amended): for every source that receives an entry, `initialize`
computes the CompositeKey `_coordsDescendingInvStr[source][key]` as the
sorted, joined (comma-separated) string of the keys of the contributing
tiles in `_coordsDescendingInv[source][key]` — duplicates included, no
de-duplication is performed. -/
theorem c3_composite_key_sorted_join (env : RTTEnv) (tiles : List RTTTile)
    (s : RTTState) (src : String) (inn : List (String × String))
    (h : alGet (initializeRTT env tiles s).coordsDescendingInvStr src = some inn) :
    inn = ((alGet (computeInv env) src).getD []).map
      (fun kv => (kv.1, String.intercalate "," (sortStrings (kv.2.map SrcTileID.key)))) := by
  rw [initializeRTT_str] at h
  exact computeStr_entries env (computeInv env) src inn h

/-- C3 amended witness: in the duplicate-key scenario the stored row for
source `s` is `[("t", "a,a")]`, the sorted join with the duplicate kept. -/
theorem c3_composite_key_sorted_join_witness :
    ([("t", "a,a")] : List (String × String))
      = ((alGet (computeInv c3Env) "s").getD []).map
        (fun kv => (kv.1, String.intercalate "," (sortStrings (kv.2.map SrcTileID.key)))) :=
  c3_composite_key_sorted_join c3Env [] emptyRTT "s" [("t", "a,a")] (by decide)

/-- C3 counterexample: with two contributing coordinates that share the
key `"a"`, `initialize` stores the CompositeKey `"a,a"`, not the
de-duplicated string `"a"` the claim describes. -/
theorem c3_composite_key_counterexample :
    alGet ((alGet (initializeRTT c3Env [] emptyRTT).coordsDescendingInvStr "s").getD [])
        "t" = some "a,a" ∧
    compositeKeySpecStr
        ((alGet ((alGet (computeInv c3Env) "s").getD []) "t").getD []) = "a" ∧
    ("a,a" : String) ≠ "a" := by
  decide

/-- C1: the failing input.  A tile whose only cached surface sits at
framebuffer index 0 with an unchanged CompositeKey and no re-render
flag: `initialize` duly preserves the assignment (`rttFBOs = [some 0]`)
and marks slot 0 used, yet the flush of `renderLayer` re-draws the
tile's stack — one draw call instead of the zero the claim requires —
because `if (tile.rttFBOs[stack]) continue` treats the valid index `0`
as unassigned. -/
theorem c1_cached_tile_redrawn :
    c1Frame1.renderableTiles
      = [{ tileKey := "t", rttFBOs := [some 0], rttCoords := [("s", "a")] }] ∧
    c1Frame2Init.renderableTiles
      = [{ tileKey := "t", rttFBOs := [some 0], rttCoords := [("s", "a")] }] ∧
    usedGet c1Frame2Init.rttUsedFBOs 0 = true ∧
    countTileDraws "t" c1Frame2.trace = 1 := by
  decide

/-- C4: the failing input.  On an empty pool, `getFBO` creates
framebuffer 0 and returns its index without marking it used, so an
immediately following `getFBO` (no intervening `freeFBO`) finds slot 0
"free" and returns the same index. -/
theorem c4_getFBO_duplicate_index :
    (getFBO emptyRTT).1 = 0 ∧
    usedGet (getFBO emptyRTT).2.rttUsedFBOs 0 = false ∧
    (getFBO (getFBO emptyRTT).2).1 = 0 := by
  decide

/-- C6: processing [background, fill, symbol, fill, hillshade] yields
the partition [[background, fill]], a pass-through break at the symbol
layer (reported not rendered to texture), the stack [[fill]], and the
dedicated single-layer hillshade stack; the four non-symbol layers are
reported rendered to texture, and on the next frame the hillshade
surface is freed back to the pool, freshly re-claimed and re-drawn. -/
theorem c6_stack_partition :
    c6Frame1.1 = [true, true, false, true, true] ∧
    c6Frame1.2.stacksArr = [["l0", "l1"], ["l3"], ["l4"]] ∧
    c6Frame2.stacksArr = [["l0", "l1"], ["l3"], ["l4"]] ∧
    c6Frame2.trace.contains (RTTEvent.freeFBOEv (some 1)) = true ∧
    c6Frame2.trace.contains (RTTEvent.allocFBO 1) = true ∧
    countLayerDraws "l4" c6Frame2.trace = 1 := by
  decide

end MGL
